import Mathlib

/-!
Lighthouse: device store and network selection.

A shallow embedding of `internal/storage/storage.go` and
`internal/network/detect.go`.

The device store.

The store is one SQLite table, `devices`.  A table is modelled as the list of
its rows in insertion order, and each SQL statement of the Go code as a
function on that list.  What a statement reads from the outside world is an
explicit argument: the value of Go's `time.Now()`, the clock of the database
engine (`'now'`, `CURRENT_TIMESTAMP`), and the row id the engine hands out on
an insert.

Conventions of the model:

* An instant is counted in nanoseconds since the Unix epoch.
* A timestamp column holds text, of one of two forms (`Stamp`): the text
  SQLite writes for `CURRENT_TIMESTAMP`, and the text the database driver
  (`modernc.org/sqlite`, imported by `storage.go`) writes for a bound
  `time.Time`, which is that of `time.Time.String()`.  The driver reads both
  back into a `time.Time`; SQLite's own `datetime` reads the first form only
  and yields NULL on the second.
* `datetime(x)`, when not NULL, is a text with whole seconds; it is modelled
  by the count of whole seconds, which orders as the text does.
* Columns `is_online`, `first_seen_at` and `last_seen_at` are written by every
  statement of the program that creates a row and are never NULL here; the
  three text columns read through `sql.NullString` may be NULL.
* `SaveDevice` and `MarkStaleDevicesOffline` are given by the state they
  leave behind when they succeed.  With a single caller no statement fails;
  among concurrent callers a query can fail with `SQLITE_BUSY`, and the
  outcome of each query of `GetStats` is then an input
  (`GetStatsInterleaved`).

Network selection.

`net.Interfaces()` and `iface.Addrs()` are inputs.  An interface address is
kept by `DetectNetworks` only if it is an IPv4 `*net.IPNet`; for those the
four address bytes and the four mask bytes are modelled, with Go's
`IP.Mask`, `IPMask.Size` and `IP.String`.
-/

namespace Lighthouse

namespace storage

/-- An instant, in nanoseconds since the Unix epoch. -/
abbrev Time := Int

/-- Nanoseconds in one second. -/
def nanosPerSecond : Int := 1000000000

/-- Nanoseconds in one minute. -/
def nanosPerMinute : Int := 60 * nanosPerSecond

/-- SQLite `datetime` of the instant `t` of the engine's clock (`'now'` and
its modifiers): the text `YYYY-MM-DD HH:MM:SS`, which carries whole seconds
only.  Two such texts compare as their whole-second counts do, so the text is
represented by that count. -/
def datetime (t : Time) : Int := t / nanosPerSecond

/-- SQLite `CURRENT_TIMESTAMP`, read back as an instant: the engine's clock
`sqlNow` cut to the whole second. -/
def CURRENT_TIMESTAMP (sqlNow : Time) : Time := datetime sqlNow * nanosPerSecond

/-- The text held in a `TIMESTAMP` column of table `devices`. -/
inductive Stamp where
  /-- Text written by SQLite for `CURRENT_TIMESTAMP`, `YYYY-MM-DD HH:MM:SS`,
  given by its count of whole seconds. -/
  | sqlite (seconds : Int)
  /-- Text written by the driver for a bound `time.Time` parameter: the form
  of `time.Time.String()`, as in
  `2026-11-02 02:21:37.430526871 +0000 UTC m=+0.49`, given by the instant it
  denotes. -/
  | goString (t : Time)
  deriving DecidableEq, Repr

/-- The `time.Time` that `rows.Scan` reads from a timestamp column; the
driver reads both forms of text. -/
def Stamp.instant : Stamp → Time
  | .sqlite seconds => seconds * nanosPerSecond
  | .goString t => t

/-- SQLite `datetime(c)` on a stored timestamp column `c`: the whole-second
text for text of SQLite's own form, NULL (`none`) for the driver's
`time.Time.String()` text, whose zone suffix SQLite's date functions do not
read. -/
def Stamp.datetime : Stamp → Option Int
  | .sqlite seconds => some seconds
  | .goString _ => none

/-- One row of table `devices` (schema in `DB.migrate`).  The three text
columns `mac_address`, `hostname`, `vendor` are nullable. -/
structure Row where
  id : Int
  ip_address : String
  mac_address : Option String
  hostname : Option String
  vendor : Option String
  is_online : Bool
  first_seen_at : Stamp
  last_seen_at : Stamp
  deriving DecidableEq, Repr

/-- Go struct `storage.Device`. -/
structure Device where
  ID : Int
  IP : String
  MAC : String
  Hostname : String
  Vendor : String
  IsOnline : Bool
  FirstSeen : Time
  LastSeen : Time
  deriving DecidableEq, Repr

/-- Go struct `storage.Stats`. -/
structure Stats where
  TotalDevices : Int
  OnlineDevices : Int
  OfflineDevices : Int
  deriving DecidableEq, Repr

/-- Go struct `storage.DB`: the content of table `devices`, rows in insertion
order. -/
structure DB where
  devices : List Row
  deriving DecidableEq, Repr

/-- The table right after `migrate` on a fresh file. -/
def DB.empty : DB := { devices := [] }

/-- Constraint `ip_address TEXT NOT NULL UNIQUE` of the schema. -/
def DB.UniqueIP (db : DB) : Prop := (db.devices.map Row.ip_address).Nodup

instance (db : DB) : Decidable db.UniqueIP := by
  unfold DB.UniqueIP; infer_instance

/-- The columns `(id, ip_address)` of every row, in table order. -/
def DB.keys (db : DB) : List (Int × String) :=
  db.devices.map (fun r => (r.id, r.ip_address))

/-- The row stored for `ip`, if any. -/
def DB.lookup (db : DB) (ip : String) : Option Row :=
  db.devices.find? (fun r => r.ip_address = ip)

/-- The SQL expression
`CASE WHEN excluded.c != '' THEN excluded.c ELSE c END` of `SaveDevice`;
`excluded` is the bound Go string, `stored` the column of the existing row. -/
def caseExcluded (excluded : String) (stored : Option String) : Option String :=
  if excluded ≠ "" then some excluded else stored

/-- The `DO UPDATE SET ...` arm of `SaveDevice`, applied to the conflicting
row; `last_seen_at` becomes the driver's text of the bound `time.Now()`. -/
def doUpdate (r : Row) (mac hostname vendor : String) (now : Time) : Row :=
  { r with
    mac_address := caseExcluded mac r.mac_address
    hostname := caseExcluded hostname r.hostname
    vendor := caseExcluded vendor r.vendor
    is_online := true
    last_seen_at := .goString now }

/-- The row built by the `INSERT ... VALUES (?, ?, ?, ?, 1, ?)` arm of
`SaveDevice`.  `first_seen_at` is not in the column list and so takes its
schema default `CURRENT_TIMESTAMP`, text written by SQLite; `last_seen_at` is
the driver's text of the bound `time.Now()`; `id` is the row id chosen by the
engine. -/
def insertedRow (ip mac hostname vendor : String) (now sqlNow : Time) (rowid : Int) : Row :=
  { id := rowid
    ip_address := ip
    mac_address := some mac
    hostname := some hostname
    vendor := some vendor
    is_online := true
    first_seen_at := .sqlite (datetime sqlNow)
    last_seen_at := .goString now }

/-- The effect of `ON CONFLICT(ip_address) DO UPDATE` on one stored row: the
row whose `ip_address` is the inserted one is updated, any other is left. -/
def onConflict (ip mac hostname vendor : String) (now : Time) (r : Row) : Row :=
  if r.ip_address = ip then doUpdate r mac hostname vendor now else r

/-- `DB.SaveDevice`: `INSERT ... ON CONFLICT(ip_address) DO UPDATE SET ...`.
`now` is the value of `time.Now()` bound to the last parameter, `sqlNow` the
engine's clock while the statement runs, `rowid` the id the engine assigns
should a row be inserted. -/
def SaveDevice (db : DB) (ip mac hostname vendor : String)
    (now sqlNow : Time) (rowid : Int) : DB :=
  if db.devices.any (fun r => r.ip_address = ip) then
    { devices := db.devices.map (onConflict ip mac hostname vendor now) }
  else
    { devices := db.devices ++ [insertedRow ip mac hostname vendor now sqlNow rowid] }

/-- `rows.Scan` followed by the three `NullString` reads of `GetAllDevices`:
a NULL text column becomes the empty Go string. -/
def scanRow (r : Row) : Device :=
  { ID := r.id
    IP := r.ip_address
    MAC := r.mac_address.getD ""
    Hostname := r.hostname.getD ""
    Vendor := r.vendor.getD ""
    IsOnline := r.is_online
    FirstSeen := r.first_seen_at.instant
    LastSeen := r.last_seen_at.instant }

/-- The sort order `ORDER BY is_online DESC, ip_address`: `a` may come before
`b`.  Text compares as the list of its code points, which is the order of
the UTF-8 bytes that SQLite compares. -/
def orderBy (a b : Row) : Prop :=
  (a.is_online = true ∧ b.is_online = false) ∨
    (a.is_online = b.is_online ∧ a.ip_address.toList ≤ b.ip_address.toList)

instance : DecidableRel orderBy := fun a b => by
  unfold orderBy; infer_instance

/-- `DB.GetAllDevices`: the rows in `ORDER BY` order, each scanned into a
`Device`.  On rows of this shape neither the query nor a `Scan` has a failing
case, so the error result is always nil. -/
def GetAllDevices (db : DB) : Except String (List Device) :=
  .ok ((db.devices.insertionSort orderBy).map scanRow)

/-- The text `datetime('now', '-' || ? || ' minutes')` of
`MarkStaleDevicesOffline`, as a whole-second count; NULL (`none`) when the
modifier is not one SQLite accepts, which is the case for a negative
argument (`'--5 minutes'`). -/
def staleCutoff (minutes : Int) (sqlNow : Time) : Option Int :=
  if minutes < 0 then none else some (datetime (sqlNow - minutes * nanosPerMinute))

/-- The `WHERE` clause of `MarkStaleDevicesOffline` on one row:
`datetime(last_seen_at) < cutoff AND is_online = 1`.  A comparison with a
NULL side is NULL and selects no row, be it the cutoff or
`datetime(last_seen_at)`. -/
def isStale (cutoff : Option Int) (r : Row) : Bool :=
  match r.last_seen_at.datetime, cutoff with
  | some seen, some c => decide (seen < c) && r.is_online
  | _, _ => false

/-- The effect of `UPDATE devices SET is_online = 0 WHERE ...` on one row. -/
def setOffline (cutoff : Option Int) (r : Row) : Row :=
  if isStale cutoff r then { r with is_online := false } else r

/-- `DB.MarkStaleDevicesOffline`: `UPDATE devices SET is_online = 0 WHERE ...`;
`sqlNow` is the engine's clock, the `'now'` of the statement. -/
def MarkStaleDevicesOffline (db : DB) (minutes : Int) (sqlNow : Time) : DB :=
  { devices := db.devices.map (setOffline (staleCutoff minutes sqlNow)) }

/-- First query of `GetStats`: `SELECT COUNT(*) FROM devices`. -/
def countAll (db : DB) : Int := db.devices.length

/-- Second query of `GetStats`:
`SELECT COUNT(*) FROM devices WHERE is_online = 1`. -/
def countOnline (db : DB) : Int := db.devices.countP (fun r => r.is_online)

/-- The two queries of `GetStats`, both succeeding, with the table in state
`db1` at the first and in state `db2` at the second; the two queries are
separate statements. -/
def getStatsAt (db1 db2 : DB) : Except String Stats :=
  let total := countAll db1
  let online := countOnline db2
  .ok { TotalDevices := total, OnlineDevices := online, OfflineDevices := total - online }

/-- `DB.GetStats` called with no other caller at work: no statement runs
between its two queries and neither query fails. -/
def GetStats (db : DB) : Except String Stats := getStatsAt db db

/-- A write to the store by some caller. -/
inductive Op where
  | save (ip mac hostname vendor : String) (now sqlNow : Time) (rowid : Int)
  | sweep (minutes : Int) (sqlNow : Time)
  deriving DecidableEq, Repr

/-- One write applied to the store. -/
def step (db : DB) : Op → DB
  | .save ip mac hostname vendor now sqlNow rowid =>
      SaveDevice db ip mac hostname vendor now sqlNow rowid
  | .sweep minutes sqlNow => MarkStaleDevicesOffline db minutes sqlNow

/-- A sequence of writes applied in order. -/
def run (db : DB) (ops : List Op) : DB := ops.foldl step db

/-- Every `last_seen_at` of the table is text the driver wrote.  `SaveDevice`
is the only statement of the program that writes the column, so this holds of
every table the program has filled. -/
def DB.WrittenBySaveDevice (db : DB) : Prop :=
  ∀ r ∈ db.devices, r.last_seen_at.datetime = none

instance (db : DB) : Decidable db.WrittenBySaveDevice := by
  unfold DB.WrittenBySaveDevice; infer_instance

/-- `DB.GetStats` among concurrent callers, as the pair `(stats, err)` that Go
returns.  `err1` and `err2` are the errors of the first and of the second
`QueryRow(...).Scan(...)` when that query fails (`SQLITE_BUSY` while a writer
holds the database), `none` when it succeeds; `between` are the writes of
other callers that execute between the two queries.  A failing `Scan` leaves
its destination at the zero value. -/
def GetStatsInterleaved (db : DB) (between : List Op) (err1 err2 : Option String) :
    Stats × Option String :=
  match err1 with
  | some e => ({ TotalDevices := 0, OnlineDevices := 0, OfflineDevices := 0 }, some e)
  | none =>
    let total := countAll db
    match err2 with
    | some e => ({ TotalDevices := total, OnlineDevices := 0, OfflineDevices := 0 }, some e)
    | none =>
      let online := countOnline (run db between)
      ({ TotalDevices := total, OnlineDevices := online, OfflineDevices := total - online },
        none)

end storage

namespace network

/-- Go struct `network.Network`. -/
structure Network where
  CIDR : String
  Interface : String
  IP : String
  deriving DecidableEq, Repr

/-- Go `net.FlagUp`, bit 0 of `net.Flags`. -/
def FlagUp : Nat := 1

/-- Go `net.FlagLoopback`, bit 2 of `net.Flags`. -/
def FlagLoopback : Nat := 4

/-- Four bytes: an IPv4 address (`IP.To4()`) or an IPv4 mask. -/
structure Bytes4 where
  b0 : Nat
  b1 : Nat
  b2 : Nat
  b3 : Nat
  deriving DecidableEq, Repr

/-- Go `IP.Mask` on an IPv4 address and a four-byte mask: bytewise and. -/
def Bytes4.Mask (ip mask : Bytes4) : Bytes4 :=
  { b0 := Nat.land ip.b0 mask.b0
    b1 := Nat.land ip.b1 mask.b1
    b2 := Nat.land ip.b2 mask.b2
    b3 := Nat.land ip.b3 mask.b3 }

/-- Go `IP.String` on an IPv4 address: dotted decimal. -/
def Bytes4.String (ip : Bytes4) : String :=
  toString ip.b0 ++ "." ++ toString ip.b1 ++ "." ++ toString ip.b2 ++ "." ++ toString ip.b3

/-- The inner loop of Go `simpleMaskLength`,
`for v&0x80 != 0 { n++; v <<= 1 }` on a byte `v`; returns `(v, n)`. -/
def shiftOnes : Nat → Nat → Nat → Nat × Nat
  | 0, v, n => (v, n)
  | fuel + 1, v, n =>
    if Nat.land v 0x80 ≠ 0 then shiftOnes fuel ((v * 2) % 256) (n + 1) else (v, n)

/-- Go `simpleMaskLength`: the number of leading one bits when the mask is
ones followed by zeros, `none` (Go: -1) otherwise. -/
def simpleMaskLength : List Nat → Nat → Option Nat
  | [], n => some n
  | v :: rest, n =>
    if v = 0xff then simpleMaskLength rest (n + 8)
    else
      let r := shiftOnes 8 v n
      if r.1 ≠ 0 then none
      else if rest.any (fun b => b ≠ 0) then none
      else some r.2

/-- First result of Go `IPMask.Size`. -/
def Bytes4.Size (m : Bytes4) : Nat :=
  match simpleMaskLength [m.b0, m.b1, m.b2, m.b3] 0 with
  | some n => n
  | none => 0

/-- One entry of `iface.Addrs()`, by the two tests `DetectNetworks` makes on
it. -/
inductive Addr where
  /-- A `*net.IPNet` whose `IP.To4()` is not nil: the four address bytes and
  the mask. -/
  | ipNet4 (ip mask : Bytes4)
  /-- A `*net.IPNet` whose `IP.To4()` is nil. -/
  | ipNet6
  /-- An address that is not a `*net.IPNet`. -/
  | other
  deriving DecidableEq, Repr

/-- Go `net.Interface` with the result of its `Addrs()` call. -/
structure NetInterface where
  Name : String
  Flags : Nat
  Addrs : Except String (List Addr)

/-- Go `strings.HasPrefix(s, p)`. -/
def hasPrefixStr (s p : String) : Bool := p.toList.isPrefixOf s.toList

/-- The denylist of `skipInterface`. -/
def skipPrefixes : List String :=
  ["awdl", "llw", "utun", "bridge", "docker", "veth", "virbr"]

/-- Go `skipInterface`. -/
def skipInterface (name : String) : Bool :=
  skipPrefixes.any (fun p => hasPrefixStr name p)

/-- The loop over `addrs` in `DetectNetworks`, for the interface `name`. -/
def addrNetworks (name : String) : List Addr → List Network
  | [] => []
  | .ipNet4 ip mask :: rest =>
    if skipInterface name then addrNetworks name rest
    else
      { CIDR := (ip.Mask mask).String ++ "/" ++ toString mask.Size
        Interface := name
        IP := ip.String } :: addrNetworks name rest
  | .ipNet6 :: rest => addrNetworks name rest
  | .other :: rest => addrNetworks name rest

/-- The loop over `ifaces` in `DetectNetworks`. -/
def ifaceNetworks : List NetInterface → List Network
  | [] => []
  | iface :: rest =>
    if Nat.land iface.Flags FlagLoopback ≠ 0 then ifaceNetworks rest
    else if Nat.land iface.Flags FlagUp = 0 then ifaceNetworks rest
    else
      match iface.Addrs with
      | .error _ => ifaceNetworks rest
      | .ok addrs => addrNetworks iface.Name addrs ++ ifaceNetworks rest

/-- Go `DetectNetworks`; `host` is the result of `net.Interfaces()`. -/
def DetectNetworks (host : Except String (List NetInterface)) : Except String (List Network) :=
  match host with
  | .error e => .error ("failed to get interfaces: " ++ e)
  | .ok ifaces => .ok (ifaceNetworks ifaces)

/-- Go `GetPrimaryNetwork`; `host` is the result of `net.Interfaces()`. -/
def GetPrimaryNetwork (host : Except String (List NetInterface)) : Except String Network :=
  match DetectNetworks host with
  | .error e => .error e
  | .ok networks =>
    match networks with
    | [] => .error "no networks detected"
    | first :: _ =>
      match networks.find? (fun n => n.Interface = "en0") with
      | some n => .ok n
      | none =>
        match networks.find? (fun n => hasPrefixStr n.Interface "wlan") with
        | some n => .ok n
        | none =>
          match networks.find?
              (fun n => hasPrefixStr n.Interface "eth" || hasPrefixStr n.Interface "en") with
          | some n => .ok n
          | none => .ok first

/-- The priority tiers of the primary network as the specification lists
them: (1) interface named exactly `en0`, (2) name prefixed `wlan`, (3) name
prefixed `eth` or `en`, (4) any network. -/
def specTier (t : Nat) (n : Network) : Prop :=
  match t with
  | 1 => n.Interface = "en0"
  | 2 => hasPrefixStr n.Interface "wlan" = true
  | 3 => hasPrefixStr n.Interface "eth" = true ∨ hasPrefixStr n.Interface "en" = true
  | _ => True

end network

end Lighthouse


namespace Lighthouse

namespace storage

/-! ## Lemmas on `SaveDevice` -/

theorem any_ip_of_lookup {db : DB} {ip : String} {d : Row} (h : db.lookup ip = some d) :
    db.devices.any (fun r => decide (r.ip_address = ip)) = true := by
  unfold DB.lookup at h
  have hm := List.mem_of_find?_eq_some h
  have hp := List.find?_some h
  exact List.any_eq_true.mpr ⟨d, hm, hp⟩

theorem any_ip_of_lookup_none {db : DB} {ip : String} (h : db.lookup ip = none) :
    db.devices.any (fun r => decide (r.ip_address = ip)) = false := by
  unfold DB.lookup at h
  rw [List.find?_eq_none] at h
  rw [Bool.eq_false_iff]
  intro hany
  obtain ⟨r, hr, hp⟩ := List.any_eq_true.mp hany
  exact h r hr hp

theorem find_map_of_keeps_ip (rows : List Row) (ip : String) (g : Row → Row)
    (hg : ∀ r, (g r).ip_address = r.ip_address) :
    (rows.map g).find? (fun r => decide (r.ip_address = ip))
      = (rows.find? (fun r => decide (r.ip_address = ip))).map g := by
  induction rows with
  | nil => rfl
  | cons r rest ih =>
    by_cases hr : r.ip_address = ip
    · simp [List.find?, hr, hg]
    · simp [List.find?, hr, hg, ih]

theorem onConflict_ip (ip mac hostname vendor : String) (now : Time) (r : Row) :
    (onConflict ip mac hostname vendor now r).ip_address = r.ip_address := by
  unfold onConflict; split <;> rfl

theorem onConflict_id (ip mac hostname vendor : String) (now : Time) (r : Row) :
    (onConflict ip mac hostname vendor now r).id = r.id := by
  unfold onConflict; split <;> rfl

theorem setOffline_ip (cutoff : Option Int) (r : Row) :
    (setOffline cutoff r).ip_address = r.ip_address := by
  unfold setOffline; split <;> rfl

theorem setOffline_id (cutoff : Option Int) (r : Row) :
    (setOffline cutoff r).id = r.id := by
  unfold setOffline; split <;> rfl

theorem SaveDevice_of_present {db : DB} {ip : String} {d : Row} (h : db.lookup ip = some d)
    (mac hostname vendor : String) (now sqlNow : Time) (rowid : Int) :
    SaveDevice db ip mac hostname vendor now sqlNow rowid =
      { devices := db.devices.map (onConflict ip mac hostname vendor now) } := by
  unfold SaveDevice
  rw [if_pos (any_ip_of_lookup h)]

theorem SaveDevice_of_absent {db : DB} {ip : String} (h : db.lookup ip = none)
    (mac hostname vendor : String) (now sqlNow : Time) (rowid : Int) :
    SaveDevice db ip mac hostname vendor now sqlNow rowid =
      { devices := db.devices ++ [insertedRow ip mac hostname vendor now sqlNow rowid] } := by
  unfold SaveDevice
  rw [if_neg (by simp [any_ip_of_lookup_none h])]

theorem lookup_ip_aux {rows : List Row} {ip : String} {d : Row}
    (h : rows.find? (fun r => decide (r.ip_address = ip)) = some d) : d.ip_address = ip := by
  simpa using List.find?_some h

theorem lookup_SaveDevice_of_present {db : DB} {ip : String} {d : Row}
    (h : db.lookup ip = some d) (mac hostname vendor : String) (now sqlNow : Time)
    (rowid : Int) :
    (SaveDevice db ip mac hostname vendor now sqlNow rowid).lookup ip
      = some (doUpdate d mac hostname vendor now) := by
  rw [SaveDevice_of_present h]
  unfold DB.lookup at h ⊢
  simp only
  rw [find_map_of_keeps_ip db.devices ip _ (onConflict_ip ip mac hostname vendor now), h]
  simp [onConflict, lookup_ip_aux h]

theorem lookup_ip {db : DB} {ip : String} {d : Row} (h : db.lookup ip = some d) :
    d.ip_address = ip := by
  unfold DB.lookup at h
  simpa using List.find?_some h

/-! ## C1 -/

/-- C1: when the store already holds a device for `ip`, `SaveDevice` leaves for
that address a device whose MAC, Hostname and Vendor are each the incoming
value when that is non-empty and the stored value otherwise, and whose ID, IP
and FirstSeen are those of the stored device; no device is added. -/
theorem SaveDevice_merges_into_existing (db : DB) (ip mac hostname vendor : String)
    (now sqlNow : Time) (rowid : Int) (d : Row) (h : db.lookup ip = some d) :
    ∃ d', (SaveDevice db ip mac hostname vendor now sqlNow rowid).lookup ip = some d' ∧
      (scanRow d').MAC = (if mac ≠ "" then mac else (scanRow d).MAC) ∧
      (scanRow d').Hostname = (if hostname ≠ "" then hostname else (scanRow d).Hostname) ∧
      (scanRow d').Vendor = (if vendor ≠ "" then vendor else (scanRow d).Vendor) ∧
      (scanRow d').ID = (scanRow d).ID ∧
      (scanRow d').IP = (scanRow d).IP ∧ (scanRow d').IP = ip ∧
      (scanRow d').FirstSeen = (scanRow d).FirstSeen ∧
      (SaveDevice db ip mac hostname vendor now sqlNow rowid).devices.length
        = db.devices.length := by
  refine ⟨doUpdate d mac hostname vendor now,
    lookup_SaveDevice_of_present h mac hostname vendor now sqlNow rowid, ?_, ?_, ?_, rfl, rfl,
    ?_, rfl, ?_⟩
  · by_cases hm : mac = "" <;> simp [scanRow, doUpdate, caseExcluded, hm]
  · by_cases hm : hostname = "" <;> simp [scanRow, doUpdate, caseExcluded, hm]
  · by_cases hm : vendor = "" <;> simp [scanRow, doUpdate, caseExcluded, hm]
  · exact (lookup_ip h : d.ip_address = ip)
  · rw [SaveDevice_of_present h]; simp

/-- C1, the example of the specification: stored
`10.0.0.5` with hostname `printer` and no MAC or vendor, observed again with
MAC `AA:BB:CC:DD:EE:FF`, vendor `HP` and no hostname. -/
theorem SaveDevice_merges_into_existing_witness :
    ∃ d', (SaveDevice
        { devices := [{ id := 1, ip_address := "10.0.0.5", mac_address := some "",
                        hostname := some "printer", vendor := some "", is_online := true,
                        first_seen_at := .sqlite 0, last_seen_at := .goString 0 }] }
        "10.0.0.5" "AA:BB:CC:DD:EE:FF" "" "HP" 5000000000 5000000000 2).lookup "10.0.0.5"
          = some d' ∧
      (scanRow d').MAC = "AA:BB:CC:DD:EE:FF" ∧ (scanRow d').Hostname = "printer" ∧
      (scanRow d').Vendor = "HP" ∧ (scanRow d').ID = 1 ∧ (scanRow d').FirstSeen = 0 := by
  obtain ⟨d', h1, h2, h3, h4, h5, _, _, h8, _⟩ := SaveDevice_merges_into_existing
    { devices := [{ id := 1, ip_address := "10.0.0.5", mac_address := some "",
                    hostname := some "printer", vendor := some "", is_online := true,
                    first_seen_at := .sqlite 0, last_seen_at := .goString 0 }] }
    "10.0.0.5" "AA:BB:CC:DD:EE:FF" "" "HP" 5000000000 5000000000 2
    { id := 1, ip_address := "10.0.0.5", mac_address := some "",
      hostname := some "printer", vendor := some "", is_online := true,
      first_seen_at := .sqlite 0, last_seen_at := .goString 0 } (by decide)
  exact ⟨d', h1, by simpa using h2, by simpa [scanRow] using h3, by simpa using h4,
    by simpa [scanRow] using h5, by simpa [scanRow] using h8⟩

end storage

end Lighthouse

namespace Lighthouse

namespace storage

/-! ## C2 -/

theorem floor_second_le (t : Int) : t / 1000000000 * 1000000000 ≤ t := by
  omega

theorem lt_floor_second_add (t : Int) : t < t / 1000000000 * 1000000000 + 1000000000 := by
  omega

theorem CURRENT_TIMESTAMP_le (t : Time) : CURRENT_TIMESTAMP t ≤ t :=
  floor_second_le t

theorem lt_CURRENT_TIMESTAMP_add (t : Time) : t < CURRENT_TIMESTAMP t + nanosPerSecond :=
  lt_floor_second_add t

theorem lookup_append_of_none {db : DB} {ip : String} (h : db.lookup ip = none) (r : Row)
    (hr : r.ip_address = ip) :
    DB.lookup { devices := db.devices ++ [r] } ip = some r := by
  unfold DB.lookup at h ⊢
  simp only [List.find?_append, h, Option.none_or]
  simp [List.find?, hr]

/-- C2 (as the code has it): when the store holds no device for `ip`,
`SaveDevice` appends exactly one row for `ip` and leaves every other row as it
was; the new device has the given MAC, Hostname and Vendor, `IsOnline = true`
and `LastSeen = now`, the value of `time.Now()`.  `FirstSeen` is not `now` but
the engine's `CURRENT_TIMESTAMP`, its own clock cut to the whole second; it
equals `LastSeen` only when `now` is exactly that whole second. -/
theorem SaveDevice_creates_device (db : DB) (ip mac hostname vendor : String)
    (now sqlNow : Time) (rowid : Int) (h : db.lookup ip = none) :
    ∃ r, (SaveDevice db ip mac hostname vendor now sqlNow rowid).devices = db.devices ++ [r] ∧
      (SaveDevice db ip mac hostname vendor now sqlNow rowid).lookup ip = some r ∧
      (scanRow r).IP = ip ∧ (scanRow r).MAC = mac ∧ (scanRow r).Hostname = hostname ∧
      (scanRow r).Vendor = vendor ∧ (scanRow r).IsOnline = true ∧
      (scanRow r).LastSeen = now ∧
      (scanRow r).FirstSeen = CURRENT_TIMESTAMP sqlNow ∧
      (scanRow r).FirstSeen ≤ sqlNow ∧ sqlNow < (scanRow r).FirstSeen + nanosPerSecond ∧
      ((scanRow r).FirstSeen = (scanRow r).LastSeen ↔ now = CURRENT_TIMESTAMP sqlNow) := by
  refine ⟨insertedRow ip mac hostname vendor now sqlNow rowid, ?_, ?_, rfl, rfl, rfl, rfl, rfl,
    rfl, rfl, CURRENT_TIMESTAMP_le sqlNow, lt_CURRENT_TIMESTAMP_add sqlNow, ?_⟩
  · rw [SaveDevice_of_absent h]
  · rw [SaveDevice_of_absent h]
    exact lookup_append_of_none h _ rfl
  · exact ⟨fun e => e.symm, fun e => e.symm⟩

/-- C2, an instance: a first observation of `10.0.0.5` in the empty store. -/
theorem SaveDevice_creates_device_witness :
    ∃ r, (SaveDevice DB.empty "10.0.0.5" "AA:BB:CC:DD:EE:FF" "printer" "HP"
            1500000000 1600000000 1).devices = DB.empty.devices ++ [r] ∧
      (scanRow r).LastSeen = 1500000000 ∧ (scanRow r).FirstSeen = 1000000000 := by
  obtain ⟨r, h1, _, _, _, _, _, _, h8, h9, _⟩ := SaveDevice_creates_device DB.empty
    "10.0.0.5" "AA:BB:CC:DD:EE:FF" "printer" "HP" 1500000000 1600000000 1 (by decide)
  exact ⟨r, h1, h8, by rw [h9]; decide⟩

/-- C2 as stated fails: a first observation of `10.0.0.5` made at instant
1.5 s, with the engine's clock at the same instant, is stored with
`LastSeen` 1.5 s and `FirstSeen` 1 s. -/
theorem SaveDevice_new_FirstSeen_ne_LastSeen :
    DB.empty.lookup "10.0.0.5" = none ∧
    (SaveDevice DB.empty "10.0.0.5" "" "" "" 1500000000 1500000000 1).devices.map scanRow
      = [{ ID := 1, IP := "10.0.0.5", MAC := "", Hostname := "", Vendor := "",
           IsOnline := true, FirstSeen := 1000000000, LastSeen := 1500000000 }] ∧
    ∀ d ∈ (SaveDevice DB.empty "10.0.0.5" "" "" "" 1500000000 1500000000 1).devices.map scanRow,
      d.FirstSeen ≠ d.LastSeen ∧ d.FirstSeen ≠ 1500000000 := by
  decide

/-! ## C6 -/

/-- C6: a device held by the store is, after a `MarkStaleDevicesOffline` call
(whether that call has set it offline or not) and a following `SaveDevice`
for its address, online with `LastSeen` the `time.Now()` of that `SaveDevice`
call, whatever the sweep threshold, the times and the incoming fields; its ID
and IP are kept. -/
theorem SaveDevice_revives_swept_device (db : DB) (minutes : Int) (sweepNow : Time)
    (ip mac hostname vendor : String) (now sqlNow : Time) (rowid : Int) (d0 : Row)
    (h0 : db.lookup ip = some d0) :
    ∃ d1 d2, (MarkStaleDevicesOffline db minutes sweepNow).lookup ip = some d1 ∧
      (SaveDevice (MarkStaleDevicesOffline db minutes sweepNow)
              ip mac hostname vendor now sqlNow rowid).lookup ip = some d2 ∧
      (scanRow d2).IsOnline = true ∧ (scanRow d2).LastSeen = now ∧
      (scanRow d2).ID = (scanRow d0).ID ∧ (scanRow d2).IP = (scanRow d0).IP ∧
      (scanRow d1).ID = (scanRow d0).ID ∧ (scanRow d1).IP = (scanRow d0).IP := by
  have h1 : (MarkStaleDevicesOffline db minutes sweepNow).lookup ip
      = some (setOffline (staleCutoff minutes sweepNow) d0) := by
    unfold DB.lookup MarkStaleDevicesOffline
    unfold DB.lookup at h0
    simp only
    rw [find_map_of_keeps_ip db.devices ip _ (setOffline_ip _), h0]
    rfl
  refine ⟨setOffline (staleCutoff minutes sweepNow) d0,
    doUpdate (setOffline (staleCutoff minutes sweepNow) d0) mac hostname vendor now, h1,
    lookup_SaveDevice_of_present h1 mac hostname vendor now sqlNow rowid, rfl, rfl,
    setOffline_id _ d0, setOffline_ip _ d0, setOffline_id _ d0, setOffline_ip _ d0⟩

/-- C6, an instance: `10.0.0.7` is first observed at instant 0, a 10-minute
sweep runs at 1000 s, and the device is observed again at 5000 s. -/
theorem SaveDevice_revives_swept_device_witness :
    ∃ d2, (SaveDevice (MarkStaleDevicesOffline
        (SaveDevice DB.empty "10.0.0.7" "" "" "" 0 0 1) 10 1000000000000)
        "10.0.0.7" "" "" "" 5000000000000 5000000000000 2).lookup "10.0.0.7" = some d2 ∧
      (scanRow d2).IsOnline = true ∧ (scanRow d2).LastSeen = 5000000000000 ∧
      (scanRow d2).ID = 1 ∧ (scanRow d2).IP = "10.0.0.7" := by
  obtain ⟨_, d2, _, h2, h3, h4, h5, h6, _⟩ := SaveDevice_revives_swept_device
    (SaveDevice DB.empty "10.0.0.7" "" "" "" 0 0 1) 10 1000000000000
    "10.0.0.7" "" "" "" 5000000000000 5000000000000 2
    { id := 1, ip_address := "10.0.0.7", mac_address := some "",
      hostname := some "", vendor := some "", is_online := true,
      first_seen_at := .sqlite 0, last_seen_at := .goString 0 }
    (by decide)
  exact ⟨d2, h2, h3, h4, h5, h6⟩

/-! ## C3 -/

theorem keys_SaveDevice_of_present {db : DB} {ip : String} {d : Row}
    (h : db.lookup ip = some d) (mac hostname vendor : String) (now sqlNow : Time)
    (rowid : Int) :
    (SaveDevice db ip mac hostname vendor now sqlNow rowid).keys = db.keys := by
  rw [SaveDevice_of_present h]
  unfold DB.keys
  simp only [List.map_map]
  apply List.map_congr_left
  intro r _
  simp [onConflict_ip, onConflict_id]

theorem keys_MarkStaleDevicesOffline (db : DB) (minutes : Int) (sqlNow : Time) :
    (MarkStaleDevicesOffline db minutes sqlNow).keys = db.keys := by
  unfold DB.keys MarkStaleDevicesOffline
  simp only [List.map_map]
  apply List.map_congr_left
  intro r _
  simp [setOffline_ip, setOffline_id]

theorem uniqueIP_iff_keys (db : DB) : db.UniqueIP ↔ (db.keys.map Prod.snd).Nodup := by
  unfold DB.UniqueIP DB.keys
  simp only [List.map_map]
  rfl

theorem not_mem_ips_of_lookup_none {db : DB} {ip : String} (h : db.lookup ip = none) :
    ip ∉ db.devices.map Row.ip_address := by
  unfold DB.lookup at h
  rw [List.find?_eq_none] at h
  intro hmem
  obtain ⟨r, hr, hip⟩ := List.mem_map.mp hmem
  exact h r hr (by simpa using hip)

theorem uniqueIP_SaveDevice {db : DB} (hu : db.UniqueIP) (ip mac hostname vendor : String)
    (now sqlNow : Time) (rowid : Int) :
    (SaveDevice db ip mac hostname vendor now sqlNow rowid).UniqueIP := by
  cases h : db.lookup ip with
  | some d =>
    rw [uniqueIP_iff_keys, keys_SaveDevice_of_present h, ← uniqueIP_iff_keys]
    exact hu
  | none =>
    rw [SaveDevice_of_absent h]
    unfold DB.UniqueIP at hu ⊢
    simp only [List.map_append, List.map_cons, List.map_nil]
    rw [List.nodup_append]
    refine ⟨hu, List.nodup_singleton _, ?_⟩
    intro a ha hb
    have : a = ip := by simpa [insertedRow] using hb
    subst this
    exact not_mem_ips_of_lookup_none h ha

theorem uniqueIP_MarkStaleDevicesOffline {db : DB} (hu : db.UniqueIP) (minutes : Int)
    (sqlNow : Time) : (MarkStaleDevicesOffline db minutes sqlNow).UniqueIP := by
  rw [uniqueIP_iff_keys, keys_MarkStaleDevicesOffline, ← uniqueIP_iff_keys]
  exact hu

theorem uniqueIP_step {db : DB} (hu : db.UniqueIP) (op : Op) : (step db op).UniqueIP := by
  cases op with
  | save ip mac hostname vendor now sqlNow rowid =>
    exact uniqueIP_SaveDevice hu ip mac hostname vendor now sqlNow rowid
  | sweep minutes sqlNow => exact uniqueIP_MarkStaleDevicesOffline hu minutes sqlNow

theorem uniqueIP_run (ops : List Op) : ∀ {db : DB}, db.UniqueIP → (run db ops).UniqueIP := by
  induction ops with
  | nil => intro db hu; exact hu
  | cons op rest ih => intro db hu; exact ih (uniqueIP_step hu op)

theorem uniqueIP_empty : DB.empty.UniqueIP := by
  unfold DB.UniqueIP DB.empty
  exact List.nodup_nil

theorem keys_prefix_step (db : DB) (op : Op) : db.keys <+: (step db op).keys := by
  cases op with
  | save ip mac hostname vendor now sqlNow rowid =>
    show db.keys <+: (SaveDevice db ip mac hostname vendor now sqlNow rowid).keys
    cases h : db.lookup ip with
    | some d => rw [keys_SaveDevice_of_present h]
    | none =>
      rw [SaveDevice_of_absent h]
      unfold DB.keys
      simp only [List.map_append]
      exact List.prefix_append _ _
  | sweep minutes sqlNow =>
    show db.keys <+: (MarkStaleDevicesOffline db minutes sqlNow).keys
    rw [keys_MarkStaleDevicesOffline]

/-- C3: after any finite sequence of `SaveDevice` and
`MarkStaleDevicesOffline` calls from the empty store, no two devices share an
IP; a further `SaveDevice` for an address already present keeps the list of
`(id, ip)` pairs as it is (update in place, nothing added), one for a new
address appends exactly one row, for that address; and after any further
operation the former `(id, ip)` pairs are still there, in place (nothing is
removed). -/
theorem run_keeps_one_device_per_ip (ops : List Op) :
    (run DB.empty ops).UniqueIP ∧
    (∀ (ip mac hostname vendor : String) (now sqlNow : Time) (rowid : Int),
      ((run DB.empty ops).lookup ip ≠ none →
        (SaveDevice (run DB.empty ops) ip mac hostname vendor now sqlNow rowid).keys
          = (run DB.empty ops).keys) ∧
      ((run DB.empty ops).lookup ip = none →
        ∃ r, (SaveDevice (run DB.empty ops) ip mac hostname vendor now sqlNow rowid).devices
            = (run DB.empty ops).devices ++ [r] ∧ r.ip_address = ip)) ∧
    (∀ op : Op, (run DB.empty ops).keys <+: (step (run DB.empty ops) op).keys) := by
  refine ⟨uniqueIP_run ops uniqueIP_empty, ?_, fun op => keys_prefix_step _ op⟩
  intro ip mac hostname vendor now sqlNow rowid
  constructor
  · intro hne
    cases h : (run DB.empty ops).lookup ip with
    | none => exact absurd h hne
    | some d => exact keys_SaveDevice_of_present h mac hostname vendor now sqlNow rowid
  · intro h
    exact ⟨insertedRow ip mac hostname vendor now sqlNow rowid,
      by rw [SaveDevice_of_absent h], rfl⟩

/-! ## C8 -/

theorem countOnline_le_countAll (db : DB) : countOnline db ≤ countAll db := by
  unfold countOnline countAll
  exact_mod_cast List.countP_le_length _

theorem countAll_eq_add (db : DB) :
    countAll db = countOnline db + (db.devices.countP (fun r => !r.is_online) : Nat) := by
  unfold countOnline countAll
  have := List.length_eq_countP_add_countP (fun r : Row => r.is_online) db.devices
  have h2 : List.countP (fun a => decide ¬(a : Row).is_online = true) db.devices
      = List.countP (fun r => !r.is_online) db.devices := by
    apply List.countP_congr
    intro r _
    simp
  rw [h2] at this
  exact_mod_cast this

/-- C8: `GetStats` returns `TotalDevices` the number of stored devices,
`OnlineDevices` the number with `IsOnline = true`,
`OfflineDevices = TotalDevices - OnlineDevices`; hence
`TotalDevices = OnlineDevices + OfflineDevices`, and `OfflineDevices` is the
number of devices with `IsOnline = false`. -/
theorem GetStats_counts (db : DB) :
    ∃ s, GetStats db = .ok s ∧
      s.TotalDevices = (db.devices.length : Int) ∧
      s.OnlineDevices = ((db.devices.filter (fun r => r.is_online)).length : Int) ∧
      s.OfflineDevices = s.TotalDevices - s.OnlineDevices ∧
      s.TotalDevices = s.OnlineDevices + s.OfflineDevices ∧
      s.OfflineDevices = ((db.devices.filter (fun r => !r.is_online)).length : Int) := by
  refine ⟨_, rfl, rfl, ?_, rfl, ?_, ?_⟩
  · show countOnline db = _
    unfold countOnline
    rw [List.countP_eq_length_filter]
  · show countAll db = countOnline db + (countAll db - countOnline db)
    omega
  · show countAll db - countOnline db = _
    rw [countAll_eq_add db, List.countP_eq_length_filter]
    omega

end storage

end Lighthouse

namespace Lighthouse

namespace storage

/-! ## C10 -/

theorem countAll_le_step (db : DB) (op : Op) : countAll db ≤ countAll (step db op) := by
  have h := (keys_prefix_step db op).length_le
  unfold DB.keys at h
  simp only [List.length_map] at h
  unfold countAll
  exact_mod_cast h

theorem countAll_le_run (ops : List Op) : ∀ db : DB, countAll db ≤ countAll (run db ops) := by
  induction ops with
  | nil => intro db; exact le_refl _
  | cons op rest ih => intro db; exact le_trans (countAll_le_step db op) (ih (step db op))

theorem countOnline_nonneg (db : DB) : 0 ≤ countOnline db := by
  unfold countOnline
  exact Int.ofNat_nonneg _

/-- C10 (as the code has it): `GetStats` issues two separate `COUNT` queries
outside any transaction.  If the first query fails the call returns that
error with all three counts 0; if the second fails it returns that error
with `TotalDevices` set and the other two counts 0.  If both succeed, with
writes of other callers between them, `TotalDevices` is the count of the
state before those writes, `OnlineDevices` the online count of the state after
them, and `OfflineDevices = TotalDevices - OnlineDevices`; `OnlineDevices` is
at least 0 and at most the number of devices of the later state, which is at
least `TotalDevices`.  When the writes in between add no device (sweeps, or
observations of addresses already stored, or no write at all), the result is
that of `GetStats` on the later state, so `OnlineDevices ≤ TotalDevices` and
`OfflineDevices ≥ 0`. -/
theorem GetStatsInterleaved_counts (db : DB) (between : List Op) :
    (∀ (e : String) (err2 : Option String),
      GetStatsInterleaved db between (some e) err2
        = ({ TotalDevices := 0, OnlineDevices := 0, OfflineDevices := 0 }, some e)) ∧
    (∀ e : String,
      GetStatsInterleaved db between none (some e)
        = ({ TotalDevices := countAll db, OnlineDevices := 0, OfflineDevices := 0 },
            some e)) ∧
    ∃ s, GetStatsInterleaved db between none none = (s, none) ∧
      s.TotalDevices = countAll db ∧
      s.OnlineDevices = countOnline (run db between) ∧
      s.OfflineDevices = s.TotalDevices - s.OnlineDevices ∧
      0 ≤ s.OnlineDevices ∧
      s.OnlineDevices ≤ countAll (run db between) ∧
      s.TotalDevices ≤ countAll (run db between) ∧
      (countAll (run db between) = countAll db →
        GetStats (run db between) = .ok s ∧
        s.OnlineDevices ≤ s.TotalDevices ∧ 0 ≤ s.OfflineDevices) := by
  refine ⟨fun e err2 => rfl, fun e => rfl, _, rfl, rfl, rfl, rfl, countOnline_nonneg _,
    countOnline_le_countAll _, countAll_le_run between db, ?_⟩
  intro heq
  have hle := countOnline_le_countAll (run db between)
  refine ⟨?_, ?_, ?_⟩
  · unfold GetStats getStatsAt
    simp only [heq]
  · show countOnline (run db between) ≤ countAll db
    omega
  · show 0 ≤ countAll db - countOnline (run db between)
    omega

/-- C10, an instance: `10.0.0.7` was observed at instant 0; a 10-minute sweep
of another caller at 1000 s runs between the two queries of `GetStats`, both
of which succeed. -/
theorem GetStatsInterleaved_counts_witness :
    ∃ s, GetStatsInterleaved (SaveDevice DB.empty "10.0.0.7" "" "" "" 0 0 1)
        [.sweep 10 1000000000000] none none = (s, none) ∧
      s.TotalDevices = 1 ∧ s.OnlineDevices = 1 ∧ s.OfflineDevices = 0 := by
  obtain ⟨s, h1, h2, h3, h4, _⟩ := (GetStatsInterleaved_counts
    (SaveDevice DB.empty "10.0.0.7" "" "" "" 0 0 1) [.sweep 10 1000000000000]).2.2
  have e2 : s.TotalDevices = 1 := by rw [h2]; decide
  have e3 : s.OnlineDevices = 1 := by rw [h3]; decide
  exact ⟨s, h1, e2, e3, by rw [h4, e2, e3]; decide⟩

/-- C10 as stated fails: on the empty store, with a `SaveDevice` of another
caller between the two queries, both of which succeed, `GetStats` returns
total 0, online 1, offline -1 and no error; no state of the store has these
counts. -/
theorem GetStats_torn_by_SaveDevice :
    ∃ s, GetStatsInterleaved DB.empty [.save "10.0.0.9" "" "" "" 0 0 1] none none
        = (s, none) ∧
      s = { TotalDevices := 0, OnlineDevices := 1, OfflineDevices := -1 } ∧
      s.TotalDevices < s.OnlineDevices ∧ s.OfflineDevices < 0 ∧
      ∀ db : DB, ¬ (countAll db = s.TotalDevices ∧ countOnline db = s.OnlineDevices) := by
  refine ⟨{ TotalDevices := 0, OnlineDevices := 1, OfflineDevices := -1 }, rfl, rfl,
    by decide, by decide, ?_⟩
  rintro db ⟨h0, h1⟩
  have h := countOnline_le_countAll db
  rw [h0, h1] at h
  exact absurd h (by decide)

end storage

end Lighthouse

namespace Lighthouse

namespace storage

/-! ## C4 -/

theorem map_eq_self_iff_forall {α : Type} (f : α → α) (l : List α) :
    l.map f = l ↔ ∀ x ∈ l, f x = x := by
  induction l with
  | nil => simp
  | cons a rest ih => simp [ih]

theorem isStale_of_datetime_none {r : Row} (h : r.last_seen_at.datetime = none)
    (cutoff : Option Int) : isStale cutoff r = false := by
  unfold isStale
  rw [h]

theorem setOffline_of_datetime_none {r : Row} (h : r.last_seen_at.datetime = none)
    (cutoff : Option Int) : setOffline cutoff r = r := by
  unfold setOffline
  rw [isStale_of_datetime_none h]
  rfl

/-- On a table whose `last_seen_at` values were all written by `SaveDevice`,
the `WHERE` clause of `MarkStaleDevicesOffline` selects no row and the call
leaves the table as it is. -/
theorem MarkStaleDevicesOffline_of_written {db : DB} (hw : db.WrittenBySaveDevice)
    (minutes : Int) (sqlNow : Time) : MarkStaleDevicesOffline db minutes sqlNow = db := by
  cases db with
  | mk rows =>
    unfold MarkStaleDevicesOffline
    simp only [DB.mk.injEq]
    rw [map_eq_self_iff_forall]
    intro r hr
    exact setOffline_of_datetime_none (hw r hr) _

theorem writtenBySaveDevice_empty : DB.empty.WrittenBySaveDevice := by
  intro r hr
  exact absurd hr (List.not_mem_nil r)

theorem writtenBySaveDevice_SaveDevice {db : DB} (hw : db.WrittenBySaveDevice)
    (ip mac hostname vendor : String) (now sqlNow : Time) (rowid : Int) :
    (SaveDevice db ip mac hostname vendor now sqlNow rowid).WrittenBySaveDevice := by
  unfold SaveDevice
  split
  · intro r hr
    obtain ⟨r0, hr0, rfl⟩ := List.mem_map.mp hr
    unfold onConflict
    split
    · rfl
    · exact hw r0 hr0
  · intro r hr
    rcases List.mem_append.mp hr with h | h
    · exact hw r h
    · rw [List.mem_singleton] at h
      rw [h]
      rfl

theorem writtenBySaveDevice_step {db : DB} (hw : db.WrittenBySaveDevice) (op : Op) :
    (step db op).WrittenBySaveDevice := by
  cases op with
  | save ip mac hostname vendor now sqlNow rowid =>
    exact writtenBySaveDevice_SaveDevice hw ip mac hostname vendor now sqlNow rowid
  | sweep minutes sqlNow =>
    show (MarkStaleDevicesOffline db minutes sqlNow).WrittenBySaveDevice
    rw [MarkStaleDevicesOffline_of_written hw]
    exact hw

/-- Every table the program fills from the empty one has all its
`last_seen_at` values written by `SaveDevice`. -/
theorem writtenBySaveDevice_run (ops : List Op) :
    ∀ {db : DB}, db.WrittenBySaveDevice → (run db ops).WrittenBySaveDevice := by
  induction ops with
  | nil => intro db hw; exact hw
  | cons op rest ih => intro db hw; exact ih (writtenBySaveDevice_step hw op)

/-- No sweep changes a table the program has filled from the empty one. -/
theorem MarkStaleDevicesOffline_run (ops : List Op) (minutes : Int) (sqlNow : Time) :
    MarkStaleDevicesOffline (run DB.empty ops) minutes sqlNow = run DB.empty ops :=
  MarkStaleDevicesOffline_of_written (writtenBySaveDevice_run ops writtenBySaveDevice_empty)
    minutes sqlNow

/-- C4, where the code departs from it: `10.0.0.1` is stored by `SaveDevice`
at instant 0 and is online; `MarkStaleDevicesOffline 10` runs at 3600 s, so
the device's `LastSeen` is older than the threshold instant of 3000 s.  The
call leaves the device online: `last_seen_at` holds the driver's text of
`time.Now()`, on which `datetime` is NULL, and the `WHERE` clause selects no
row. -/
theorem MarkStaleDevicesOffline_leaves_stale_device_online :
    (SaveDevice DB.empty "10.0.0.1" "" "" "" 0 0 1).devices.map scanRow
      = [{ ID := 1, IP := "10.0.0.1", MAC := "", Hostname := "", Vendor := "",
           IsOnline := true, FirstSeen := 0, LastSeen := 0 }] ∧
    (0 : Int) < 3600000000000 - 10 * nanosPerMinute ∧
    (MarkStaleDevicesOffline (SaveDevice DB.empty "10.0.0.1" "" "" "" 0 0 1)
        10 3600000000000).devices.map scanRow
      = [{ ID := 1, IP := "10.0.0.1", MAC := "", Hostname := "", Vendor := "",
           IsOnline := true, FirstSeen := 0, LastSeen := 0 }] := by
  decide

/-! ## C5 -/

/-- C5: on every store the program has filled (all `last_seen_at` values
written by `SaveDevice`), for every threshold and every two clock readings,
calling `MarkStaleDevicesOffline threshold` twice in succession with no
`SaveDevice` in between leaves the store after the second call identical to
the store after the first. -/
theorem MarkStaleDevicesOffline_twice (db : DB) (threshold : Int) (t1 t2 : Time)
    (hw : db.WrittenBySaveDevice) :
    MarkStaleDevicesOffline (MarkStaleDevicesOffline db threshold t1) threshold t2
      = MarkStaleDevicesOffline db threshold t1 := by
  rw [MarkStaleDevicesOffline_of_written hw threshold t1]
  rw [MarkStaleDevicesOffline_of_written hw threshold t2]

/-- C5, an instance: `10.0.0.1` is observed at instant 0; two 10-minute sweeps
follow, at 600 s and at 3600 s. -/
theorem MarkStaleDevicesOffline_twice_witness :
    (SaveDevice DB.empty "10.0.0.1" "" "" "" 0 0 1).WrittenBySaveDevice ∧
    MarkStaleDevicesOffline (MarkStaleDevicesOffline
        (SaveDevice DB.empty "10.0.0.1" "" "" "" 0 0 1) 10 600000000000) 10 3600000000000
      = MarkStaleDevicesOffline
        (SaveDevice DB.empty "10.0.0.1" "" "" "" 0 0 1) 10 600000000000 :=
  ⟨by decide,
   MarkStaleDevicesOffline_twice (SaveDevice DB.empty "10.0.0.1" "" "" "" 0 0 1)
     10 600000000000 3600000000000 (by decide)⟩

end storage

end Lighthouse

namespace Lighthouse

namespace storage

/-! ## C7 -/

theorem orderBy_total (a b : Row) : orderBy a b ∨ orderBy b a := by
  unfold orderBy
  by_cases heq : a.is_online = b.is_online
  · rcases le_total a.ip_address.toList b.ip_address.toList with h | h
    · exact Or.inl (Or.inr ⟨heq, h⟩)
    · exact Or.inr (Or.inr ⟨heq.symm, h⟩)
  · cases ha : a.is_online <;> cases hb : b.is_online
    · exact absurd (ha.trans hb.symm) heq
    · exact Or.inr (Or.inl ⟨rfl, rfl⟩)
    · exact Or.inl (Or.inl ⟨rfl, rfl⟩)
    · exact absurd (ha.trans hb.symm) heq

theorem orderBy_trans {a b c : Row} (hab : orderBy a b) (hbc : orderBy b c) : orderBy a c := by
  unfold orderBy at *
  rcases hab with ⟨h1, h2⟩ | ⟨h1, h2⟩ <;> rcases hbc with ⟨h3, h4⟩ | ⟨h3, h4⟩
  · rw [h2] at h3; exact Bool.noConfusion h3
  · left; exact ⟨h1, by rw [← h3]; exact h2⟩
  · left; exact ⟨by rw [h1]; exact h3, h4⟩
  · right; exact ⟨h1.trans h3, le_trans h2 h4⟩

theorem sorted_insertionSort_orderBy (l : List Row) :
    (l.insertionSort orderBy).Sorted orderBy :=
  @List.sorted_insertionSort Row orderBy _ ⟨orderBy_total⟩ ⟨fun _ _ _ => orderBy_trans⟩ l

theorem sorted_eq_online_append_offline :
    ∀ l : List Row, l.Sorted orderBy →
      l = l.filter (fun r => r.is_online) ++ l.filter (fun r => !r.is_online) := by
  intro l
  induction l with
  | nil => intro _; rfl
  | cons a rest ih =>
    intro hs
    have hrest := ih (List.Sorted.of_cons hs)
    have hall : ∀ b ∈ rest, orderBy a b := List.rel_of_sorted_cons hs
    cases ha : a.is_online
    · have hoff : ∀ b ∈ rest, b.is_online = false := by
        intro b hb
        rcases hall b hb with ⟨h1, _⟩ | ⟨h1, _⟩
        · rw [ha] at h1; exact Bool.noConfusion h1
        · rw [← h1]; exact ha
      have h1 : rest.filter (fun r => r.is_online) = [] := by
        rw [List.filter_eq_nil_iff]
        intro b hb
        simp [hoff b hb]
      have h2 : rest.filter (fun r => !r.is_online) = rest := by
        rw [List.filter_eq_self]
        intro b hb
        simp [hoff b hb]
      simp [List.filter_cons, ha, h1, h2]
    · simp only [List.filter_cons, ha, if_true, Bool.not_true, Bool.false_eq_true, if_false,
        List.cons_append]
      exact congrArg (List.cons a) hrest

theorem ip_lt_of_group {g : Bool} {l : List Row} (hs : l.Pairwise orderBy)
    (hn : (l.map Row.ip_address).Nodup) (hg : ∀ r ∈ l, r.is_online = g) :
    (l.map (fun r => (scanRow r).IP)).Pairwise (fun a b => a < b) := by
  rw [List.pairwise_map]
  have hne : l.Pairwise (fun a b => a.ip_address ≠ b.ip_address) := by
    unfold List.Nodup at hn
    rw [List.pairwise_map] at hn
    exact hn
  refine (hs.and hne).imp_of_mem ?_
  intro a b ha hb hab
  obtain ⟨hord, hneq⟩ := hab
  show a.ip_address < b.ip_address
  rw [String.lt_iff_toList_lt]
  have hle : a.ip_address.toList ≤ b.ip_address.toList := by
    rcases hord with ⟨h1, h2⟩ | ⟨_, h2⟩
    · rw [hg a ha] at h1; rw [hg b hb] at h2; rw [h1] at h2; exact Bool.noConfusion h2
    · exact h2
  refine lt_of_le_of_ne hle ?_
  intro he
  exact hneq (String.ext he)

/-- C7: on a store that satisfies the schema's `UNIQUE` constraint on
`ip_address`, `GetAllDevices` returns, with no error, every stored device
exactly once (a permutation of the stored devices), as the online devices
followed by the offline devices, the IPs of each group strictly ascending in
the order of strings; on the empty store it returns the empty sequence. -/
theorem GetAllDevices_online_first_by_ip (db : DB) (hu : db.UniqueIP) :
    ∃ out, GetAllDevices db = .ok out ∧
      out.Perm (db.devices.map scanRow) ∧
      (∃ onl offl, out = onl ++ offl ∧
        (∀ d ∈ onl, d.IsOnline = true) ∧ (∀ d ∈ offl, d.IsOnline = false) ∧
        (onl.map Device.IP).Sorted (fun a b => a < b) ∧
        (offl.map Device.IP).Sorted (fun a b => a < b)) ∧
      (db.devices = [] → out = []) := by
  have hperm : (db.devices.insertionSort orderBy).Perm db.devices :=
    List.perm_insertionSort orderBy db.devices
  have hsorted : (db.devices.insertionSort orderBy).Sorted orderBy :=
    sorted_insertionSort_orderBy db.devices
  have hnodup : ((db.devices.insertionSort orderBy).map Row.ip_address).Nodup :=
    (hperm.map Row.ip_address).nodup_iff.mpr hu
  refine ⟨(db.devices.insertionSort orderBy).map scanRow, rfl, hperm.map scanRow, ?_, ?_⟩
  · refine ⟨((db.devices.insertionSort orderBy).filter (fun r => r.is_online)).map scanRow,
      ((db.devices.insertionSort orderBy).filter (fun r => !r.is_online)).map scanRow,
      ?_, ?_, ?_, ?_, ?_⟩
    · rw [← List.map_append]
      exact congrArg (List.map scanRow) (sorted_eq_online_append_offline _ hsorted)
    · intro d hd
      obtain ⟨r, hr, rfl⟩ := List.mem_map.mp hd
      exact (List.mem_filter.mp hr).2
    · intro d hd
      obtain ⟨r, hr, rfl⟩ := List.mem_map.mp hd
      have := (List.mem_filter.mp hr).2
      show r.is_online = false
      simpa using this
    · rw [List.map_map]
      exact ip_lt_of_group (g := true) (hsorted.sublist (List.filter_sublist _))
        (hnodup.sublist ((List.filter_sublist _).map _))
        (fun r hr => (List.mem_filter.mp hr).2)
    · rw [List.map_map]
      exact ip_lt_of_group (g := false) (hsorted.sublist (List.filter_sublist _))
        (hnodup.sublist ((List.filter_sublist _).map _))
        (fun r hr => by simpa using (List.mem_filter.mp hr).2)
  · intro he
    rw [he]
    rfl

/-- C7, the example of the specification: `10.0.0.2` (offline), `10.0.0.1`
(online), `10.0.0.3` (online) are listed as `10.0.0.1`, `10.0.0.3`,
`10.0.0.2`. -/
theorem GetAllDevices_online_first_by_ip_witness :
    (∃ out, GetAllDevices
        { devices :=
          [{ id := 1, ip_address := "10.0.0.2", mac_address := none, hostname := none,
             vendor := none, is_online := false, first_seen_at := .sqlite 0, last_seen_at := .goString 0 },
           { id := 2, ip_address := "10.0.0.1", mac_address := none, hostname := none,
             vendor := none, is_online := true, first_seen_at := .sqlite 0, last_seen_at := .goString 0 },
           { id := 3, ip_address := "10.0.0.3", mac_address := none, hostname := none,
             vendor := none, is_online := true, first_seen_at := .sqlite 0, last_seen_at := .goString 0 }] }
        = .ok out ∧ out.map Device.IP = ["10.0.0.1", "10.0.0.3", "10.0.0.2"]) ∧
    GetAllDevices DB.empty = .ok [] := by
  obtain ⟨out, h1, _⟩ := GetAllDevices_online_first_by_ip
    { devices :=
      [{ id := 1, ip_address := "10.0.0.2", mac_address := none, hostname := none,
         vendor := none, is_online := false, first_seen_at := .sqlite 0, last_seen_at := .goString 0 },
       { id := 2, ip_address := "10.0.0.1", mac_address := none, hostname := none,
         vendor := none, is_online := true, first_seen_at := .sqlite 0, last_seen_at := .goString 0 },
       { id := 3, ip_address := "10.0.0.3", mac_address := none, hostname := none,
         vendor := none, is_online := true, first_seen_at := .sqlite 0, last_seen_at := .goString 0 }] }
    (by decide)
  refine ⟨⟨out, h1, ?_⟩, rfl⟩
  unfold GetAllDevices at h1
  simp only [Except.ok.injEq] at h1
  rw [← h1]
  decide

end storage

end Lighthouse

namespace Lighthouse

namespace network

/-! ## C9 -/

theorem find_split {p : Network → Bool} {l : List Network} {n : Network}
    (h : l.find? p = some n) :
    p n = true ∧ ∃ pre post, l = pre ++ n :: post ∧ ∀ m ∈ pre, p m = false := by
  obtain ⟨hp, pre, post, hl, hpre⟩ := List.find?_eq_some.mp h
  exact ⟨hp, pre, post, hl, fun m hm => by simpa using hpre m hm⟩

theorem find_none {p : Network → Bool} {l : List Network} (h : l.find? p = none) :
    ∀ m ∈ l, p m = false := by
  intro m hm
  simpa using (List.find?_eq_none.mp h) m hm

/-- C9: when `DetectNetworks` yields the list `networks`, `GetPrimaryNetwork`
fails with the no-network error if the list is empty, and otherwise returns
the first network of the list that belongs to tier `t`, where `t` is the
first of the tiers (1) named `en0`, (2) prefixed `wlan`, (3) prefixed `eth` or
`en`, (4) any network, that has a member in the list. -/
theorem GetPrimaryNetwork_first_of_best_tier (host : Except String (List NetInterface))
    (networks : List Network) (h : DetectNetworks host = .ok networks) :
    (networks = [] → GetPrimaryNetwork host = .error "no networks detected") ∧
    (networks ≠ [] →
      ∃ (t : Nat) (pre : List Network) (n : Network) (post : List Network),
        GetPrimaryNetwork host = .ok n ∧
        networks = pre ++ n :: post ∧
        1 ≤ t ∧ t ≤ 4 ∧ specTier t n ∧
        (∀ m ∈ pre, ¬ specTier t m) ∧
        (∀ t', 1 ≤ t' → t' < t → ∀ m ∈ networks, ¬ specTier t' m)) := by
  unfold GetPrimaryNetwork
  rw [h]
  cases networks with
  | nil => exact ⟨fun _ => rfl, fun hne => absurd rfl hne⟩
  | cons first rest =>
    refine ⟨fun hnil => List.noConfusion hnil, fun _ => ?_⟩
    simp only
    cases h1 : (first :: rest).find? (fun n => decide (n.Interface = "en0")) with
    | some n =>
      obtain ⟨hp, pre, post, hl, hpre⟩ := find_split h1
      refine ⟨1, pre, n, post, rfl, hl, le_refl _, by decide, by simpa [specTier] using hp,
        ?_, ?_⟩
      · intro m hm
        simpa [specTier] using hpre m hm
      · intro t' h1' h2'
        omega
    | none =>
      have hn1 := find_none h1
      simp only
      cases h2 : (first :: rest).find? (fun n => hasPrefixStr n.Interface "wlan") with
      | some n =>
        obtain ⟨hp, pre, post, hl, hpre⟩ := find_split h2
        refine ⟨2, pre, n, post, rfl, hl, by decide, by decide, hp, ?_, ?_⟩
        · intro m hm
          simpa [specTier] using hpre m hm
        · intro t' h1' h2' m hm
          have ht : t' = 1 := by omega
          subst ht
          simpa [specTier] using hn1 m hm
      | none =>
        have hn2 := find_none h2
        simp only
        cases h3 : (first :: rest).find?
            (fun n => hasPrefixStr n.Interface "eth" || hasPrefixStr n.Interface "en") with
        | some n =>
          obtain ⟨hp, pre, post, hl, hpre⟩ := find_split h3
          refine ⟨3, pre, n, post, rfl, hl, by decide, by decide,
            by simpa [specTier] using hp, ?_, ?_⟩
          · intro m hm
            simpa [specTier] using hpre m hm
          · intro t' h1' h2' m hm
            have ht : t' = 1 ∨ t' = 2 := by omega
            rcases ht with ht | ht <;> subst ht
            · simpa [specTier] using hn1 m hm
            · simpa [specTier] using hn2 m hm
        | none =>
          have hn3 := find_none h3
          refine ⟨4, [], first, rest, rfl, rfl, by decide, by decide, trivial, ?_, ?_⟩
          · intro m hm
            exact absurd hm (List.not_mem_nil m)
          · intro t' h1' h2' m hm
            have ht : t' = 1 ∨ t' = 2 ∨ t' = 3 := by omega
            rcases ht with ht | ht | ht <;> subst ht
            · simpa [specTier] using hn1 m hm
            · simpa [specTier] using hn2 m hm
            · simpa [specTier] using hn3 m hm

/-- C9, the example of the specification: a host with loopback `lo0`, `en0`
on `192.168.1.0/24` and the bridge `docker0`; `docker0` is not among the
detected networks and the primary network is that of `en0`. -/
theorem GetPrimaryNetwork_first_of_best_tier_witness :
    DetectNetworks (.ok
        [{ Name := "lo0", Flags := 5, Addrs := .ok [.ipNet4 ⟨127, 0, 0, 1⟩ ⟨255, 0, 0, 0⟩] },
         { Name := "en0", Flags := 1,
           Addrs := .ok [.ipNet6, .ipNet4 ⟨192, 168, 1, 10⟩ ⟨255, 255, 255, 0⟩] },
         { Name := "docker0", Flags := 1,
           Addrs := .ok [.ipNet4 ⟨172, 17, 0, 1⟩ ⟨255, 255, 0, 0⟩] }])
      = .ok [{ CIDR := "192.168.1.0/24", Interface := "en0", IP := "192.168.1.10" }] ∧
    GetPrimaryNetwork (.ok
        [{ Name := "lo0", Flags := 5, Addrs := .ok [.ipNet4 ⟨127, 0, 0, 1⟩ ⟨255, 0, 0, 0⟩] },
         { Name := "en0", Flags := 1,
           Addrs := .ok [.ipNet6, .ipNet4 ⟨192, 168, 1, 10⟩ ⟨255, 255, 255, 0⟩] },
         { Name := "docker0", Flags := 1,
           Addrs := .ok [.ipNet4 ⟨172, 17, 0, 1⟩ ⟨255, 255, 0, 0⟩] }])
      = .ok { CIDR := "192.168.1.0/24", Interface := "en0", IP := "192.168.1.10" } := by
  have hd : DetectNetworks (.ok
        [{ Name := "lo0", Flags := 5, Addrs := .ok [.ipNet4 ⟨127, 0, 0, 1⟩ ⟨255, 0, 0, 0⟩] },
         { Name := "en0", Flags := 1,
           Addrs := .ok [.ipNet6, .ipNet4 ⟨192, 168, 1, 10⟩ ⟨255, 255, 255, 0⟩] },
         { Name := "docker0", Flags := 1,
           Addrs := .ok [.ipNet4 ⟨172, 17, 0, 1⟩ ⟨255, 255, 0, 0⟩] }])
      = .ok [{ CIDR := "192.168.1.0/24", Interface := "en0", IP := "192.168.1.10" }] := rfl
  obtain ⟨t, pre, n, post, hres, hl, _⟩ :=
    (GetPrimaryNetwork_first_of_best_tier _ _ hd).2 (List.cons_ne_nil _ _)
  refine ⟨hd, ?_⟩
  rw [hres]
  have hn : n ∈ [({ CIDR := "192.168.1.0/24", Interface := "en0", IP := "192.168.1.10" } :
      Network)] := by
    rw [hl]; simp
  rw [List.mem_singleton] at hn
  rw [hn]

end network

end Lighthouse
